import Mathlib

/-!
Verification of the detection inference services of the `clappper` repository
(`resources/damage-detection/inference_roof.py` and
`resources/room-detection/inference.py`) against their natural-language
specification.

The two Python services are shallowly embedded below.  Byte streams are
`List Nat`, Python floats are modelled as rationals, machine integers as
`Nat`/`Int`, and fallible Python code as `Except PyErr`.  External effects
(the filesystem lookup of model weights, the Ultralytics YOLO library, PIL
image decoding, overlay rendering) are oracles carried in an environment
record; each oracle records the observable outcome of the corresponding call
for the single request a process serves.  `load_model`'s unbounded Python
recursion is embedded with explicit fuel; exhausting the fuel corresponds to
the Python interpreter's recursion limit aborting the call with a
`RecursionError` (which the top-level handler still catches).
-/

namespace Clappper

/-- A raised Python exception, reduced to its message.  The textual traceback
emitted by `traceback.format_exc()` is abstracted as the message itself: no
claim inspects the traceback text beyond its presence. -/
structure PyErr where
  msg : String
deriving DecidableEq

/-- JSON values, as produced by `json.dumps` on the dictionaries the services
build. -/
inductive J where
  | null : J
  | str : String → J
  | int : ℤ → J
  | rat : ℚ → J
  | arr : List J → J
  | obj : List (String × J) → J

/-- Key lookup in a JSON object (`none` on non-objects and missing keys). -/
def jLookup (j : J) (k : String) : Option J :=
  match j with
  | .obj kvs => List.lookup k kvs
  | _ => none

/-- The keys of a JSON object, in order. -/
def jKeys (j : J) : List String :=
  match j with
  | .obj kvs => kvs.map Prod.fst
  | _ => []

/-- `int.from_bytes(bs, 'big')`. -/
def beNat (l : List Nat) : Nat := l.foldl (fun a b => a * 256 + b) 0

/-- Is `b` a UTF-8 continuation byte (`0x80`–`0xBF`)? -/
def isCont (b : Nat) : Bool := 128 ≤ b && b ≤ 191

/-- Strict UTF-8 decoding of a byte list into code points, as performed by
Python's `bytes.decode('utf-8')`: overlong encodings, surrogates and code
points above `U+10FFFF` are rejected.  The fuel is an upper bound on the
number of decoding steps; callers pass `length + 1`, which always suffices
because every step consumes at least one byte. -/
def utf8Aux : Nat → List Nat → Option (List Char)
  | 0, _ => none
  | _ + 1, [] => some []
  | f + 1, b :: bs =>
    if b ≤ 0x7F then
      (utf8Aux f bs).map (fun cs => Char.ofNat b :: cs)
    else if 0xC2 ≤ b && b ≤ 0xDF then
      match bs with
      | b2 :: bs2 =>
        if isCont b2 then
          (utf8Aux f bs2).map (fun cs => Char.ofNat ((b - 0xC0) * 64 + (b2 - 0x80)) :: cs)
        else none
      | [] => none
    else if 0xE0 ≤ b && b ≤ 0xEF then
      match bs with
      | b2 :: b3 :: bs3 =>
        if (if b = 0xE0 then 0xA0 else 0x80) ≤ b2 && b2 ≤ (if b = 0xED then 0x9F else 0xBF)
            && isCont b3 then
          (utf8Aux f bs3).map
            (fun cs => Char.ofNat ((b - 0xE0) * 4096 + (b2 - 0x80) * 64 + (b3 - 0x80)) :: cs)
        else none
      | _ => none
    else if 0xF0 ≤ b && b ≤ 0xF4 then
      match bs with
      | b2 :: b3 :: b4 :: bs4 =>
        if (if b = 0xF0 then 0x90 else 0x80) ≤ b2 && b2 ≤ (if b = 0xF4 then 0x8F else 0xBF)
            && isCont b3 && isCont b4 then
          (utf8Aux f bs4).map
            (fun cs => Char.ofNat
              ((b - 0xF0) * 262144 + (b2 - 0x80) * 4096 + (b3 - 0x80) * 64 + (b4 - 0x80)) :: cs)
        else none
      | _ => none
    else none

/-- `bs.decode('utf-8')`: `some` of the decoded string, or `none` when Python
would raise `UnicodeDecodeError`. -/
def utf8Decode? (bs : List Nat) : Option String :=
  (utf8Aux (bs.length + 1) bs).map List.asString

/-- Python `round` with banker's (round-half-to-even) tie-breaking, on an
exact rational. -/
def pyRound (q : ℚ) : ℤ :=
  if 2 * q < 2 * (⌊q⌋ : ℚ) + 1 then ⌊q⌋
  else if 2 * (⌊q⌋ : ℚ) + 1 < 2 * q then ⌊q⌋ + 1
  else if ⌊q⌋ % 2 = 0 then ⌊q⌋ else ⌊q⌋ + 1

/-- Python `round(q, 2)`. -/
def round2 (q : ℚ) : ℚ := (pyRound (q * 100) : ℚ) / 100

/-- Python `int()` applied to a float: truncation toward zero. -/
def pyInt (q : ℚ) : ℤ := if 0 ≤ q then ⌊q⌋ else ⌈q⌉

/-! ## Data model -/

/-- One raw box produced by the YOLO detector: `box.xyxy[0]`, `box.conf[0]`,
`box.cls[0]`. -/
structure RawBox where
  x1 : ℚ
  y1 : ℚ
  x2 : ℚ
  y2 : ℚ
  conf : ℚ
  cls : ℕ
deriving DecidableEq

/-- One damage detection, as appended to `detections` in
`inference_roof.py`. -/
structure Detection where
  cls : String
  bbox : List ℚ
  conf : ℚ
  severity : ℚ
  affected_area_pct : ℚ
deriving DecidableEq

/-- The dictionary returned by `estimate_cost`. -/
structure CostEstimate where
  labor_usd : ℚ
  materials_usd : ℚ
  disposal_usd : ℚ
  contingency_usd : ℚ
  total_usd : ℚ
  assumptions : String
deriving DecidableEq

/-- One room detection, as appended to `detected_rooms` in `inference.py`. -/
structure RoomDetection where
  id : String
  bounding_box : List ℤ
  name_hint : String
deriving DecidableEq

/-- The success dictionary returned by the damage variant's
`perform_inference`. -/
structure DamageResp where
  detections : List Detection
  cost_estimate : CostEstimate
  image_width : ℕ
  image_height : ℕ
  annotated_image : Option String
deriving DecidableEq

/-- The success dictionary returned by the room variant's
`perform_inference`. -/
structure RoomResp where
  detections : List RoomDetection
  annotated_image : Option String
deriving DecidableEq

/-! ## Cost-estimation constants (`inference_roof.py` lines 42-52) -/

def SETUP_MIN_USD : ℚ := 150
def SEVERITY_MULTIPLIER : ℚ := 400
def DISPOSAL_USD : ℚ := 25
def CONTINGENCY_PCT : ℚ := 10 / 100
def LABOR_PCT : ℚ := 60 / 100

/-- `CLASS_BASE_COSTS.get(cls, 100.00)`. -/
def classBaseCost (cls : String) : ℚ :=
  if cls = "missing_shingle" then 125
  else if cls = "lifted_shingle" then 125
  else if cls = "torn_shingle" then 125
  else if cls = "hail_bruise" then 90
  else 100

/-- `DAMAGE_CLASSES.get(cls_id, f"unknown_<id>")`. -/
def damageClassName (i : ℕ) : String :=
  if i = 0 then "missing_shingle"
  else if i = 1 then "lifted_shingle"
  else if i = 2 then "torn_shingle"
  else if i = 3 then "hail_bruise"
  else "unknown_" ++ toString i

/-- `calculate_severity` (`inference_roof.py` lines 177-182): clamp of
bounding-box area over image area, `0` on an empty image. -/
def calculate_severity (w h : ℚ) (img_width img_height : ℕ) : ℚ :=
  let bbox_area := w * h
  let img_area : ℚ := (img_width : ℚ) * (img_height : ℚ)
  if 0 < img_area then min 1 (max 0 (bbox_area / img_area)) else 0

/-- `estimate_cost` (`inference_roof.py` lines 271-298): the heuristic
fallback cost model.  All returned dollar fields are rounded to 2 decimals
(Python `round(x, 2)`). -/
def estimate_cost (detections : List Detection) : CostEstimate :=
  let has_findings := !detections.isEmpty
  let setup_min : ℚ := if has_findings then SETUP_MIN_USD else 0
  let disposal : ℚ :=
    if detections.any (fun d => d.cls == "missing_shingle" || d.cls == "torn_shingle")
    then DISPOSAL_USD else 0
  let subtotal :=
    detections.foldl
      (fun acc d => acc + (classBaseCost d.cls + SEVERITY_MULTIPLIER * d.severity)) setup_min
  let contingency := CONTINGENCY_PCT * subtotal
  let total := subtotal + disposal + contingency
  { labor_usd := round2 (subtotal * LABOR_PCT)
    materials_usd := round2 (subtotal * (1 - LABOR_PCT))
    disposal_usd := round2 disposal
    contingency_usd := round2 contingency
    total_usd := round2 total
    assumptions :=
      "Heuristic fallback: class base + area severity + setup minimum + 10% contingency." }

/-! ## Model resolution (`load_model`, both variants)

Both variants define the same `load_model` routine up to the priority list
and table of known models, collected in `LoadCfg`.  Note that in the source
the `model_id not in MODELS` branch and its `else` branch perform the same
`find_model_path` lookup with the same fallback, so the known-model table
does not steer control flow; it is kept here to state claims about unknown
identifiers. -/

structure LoadCfg where
  priority : List String
  modelKeys : List String

/-- `inference_roof.py`: fallback priority and `MODELS` keys. -/
def damageCfg : LoadCfg :=
  ⟨["roof_damage_nano_300ep", "roof_damage_small_200ep"],
   ["roof_damage_nano_300ep", "roof_damage_small_200ep", "default"]⟩

/-- `inference.py`: fallback priority and `MODELS` keys. -/
def roomCfg : LoadCfg :=
  ⟨["room-detect-1class-20ep", "room-detect-2class-20ep"],
   ["room-detect-1class-20ep", "room-detect-2class-20ep", "default"]⟩

/-- The filesystem/library oracles consulted by `load_model`:
`find_model_path` and whether `YOLO(path)` succeeds. -/
structure LoadEnv where
  findPath : String → Option String
  loadYolo : String → Bool

/-- Outcome of a `load_model` call.  `outOfFuel` marks a recursion that is
still running when the fuel runs out (in Python: until `RecursionError`). -/
inductive LoadResult where
  | ok (handle : String) (cache : List (String × String))
  | noDefaultModel (msg : String)
  | modelLoadFailed (msg : String)
  | outOfFuel
deriving DecidableEq

/-- `load_model` (`inference_roof.py` lines 122-175, `inference.py` lines
106-159), with the process-wide `loaded_models` cache passed explicitly and
Python's unbounded recursion made explicit with fuel.  A successful load
returns the loaded handle (modelled by the weight path) and caches it. -/
def load_model (cfg : LoadCfg) (env : LoadEnv) :
    Nat → List (String × String) → String → LoadResult
  | 0, _, _ => .outOfFuel
  | fuel + 1, cache, model_id =>
    match List.lookup model_id cache with
    | some h => .ok h cache
    | none =>
      if model_id = "default" then
        match cfg.priority.find? (fun fid => (env.findPath fid).isSome) with
        | some fid => load_model cfg env fuel cache fid
        | none => .noDefaultModel "No default model found - bundled model missing!"
      else
        match env.findPath model_id with
        | none => load_model cfg env fuel cache "default"
        | some p =>
          if env.loadYolo p then .ok p ((model_id, p) :: cache)
          else if model_id ≠ "default" then load_model cfg env fuel cache "default"
          else .modelLoadFailed "Model loading failed"

/-! ## JSON serialization of the response dictionaries -/

def optStrJson : Option String → J
  | none => .null
  | some s => .str s

def detectionJson (d : Detection) : J :=
  .obj [("cls", .str d.cls), ("bbox", .arr (d.bbox.map .rat)), ("conf", .rat d.conf),
        ("severity", .rat d.severity), ("affected_area_pct", .rat d.affected_area_pct)]

def costJson (c : CostEstimate) : J :=
  .obj [("labor_usd", .rat c.labor_usd), ("materials_usd", .rat c.materials_usd),
        ("disposal_usd", .rat c.disposal_usd), ("contingency_usd", .rat c.contingency_usd),
        ("total_usd", .rat c.total_usd), ("assumptions", .str c.assumptions)]

def damageRespJson (r : DamageResp) : J :=
  .obj [("detections", .arr (r.detections.map detectionJson)),
        ("cost_estimate", costJson r.cost_estimate),
        ("image_width", .int r.image_width),
        ("image_height", .int r.image_height),
        ("annotated_image", optStrJson r.annotated_image)]

def roomDetectionJson (d : RoomDetection) : J :=
  .obj [("id", .str d.id), ("bounding_box", .arr (d.bounding_box.map .int)),
        ("name_hint", .str d.name_hint)]

def roomRespJson (r : RoomResp) : J :=
  .obj [("detections", .arr (r.detections.map roomDetectionJson)),
        ("annotated_image", optStrJson r.annotated_image)]

/-- The document printed by the top-level exception handler of both `main`s:
`json.dumps({'error': str(e), 'traceback': traceback.format_exc()})`. -/
def errJson (e : PyErr) : J :=
  .obj [("error", .str e.msg), ("traceback", .str e.msg)]

/-- The `RecursionError` raised when `load_model`'s recursion exceeds the
interpreter limit. -/
def recursionErr : PyErr := ⟨"maximum recursion depth exceeded"⟩

/-! ## Damage-detection variant (`inference_roof.py`) -/

namespace Roof

/-- External-effect oracles for one damage-detection request.
`decodeImage` is `PIL.Image.open` plus the shape read (`none` = raise);
`detector` is the outcome of `model(pil_image, conf=..., verbose=False)`
(`none` = the detector threw, `some rs` = the returned results list, one
box list per result); `annotate` is the outcome of the whole
`r.plot()`/BGR-to-RGB/PNG/base64 block (`none` = it threw).  The three
`openai`/`gpt` fields feed only `estimate_cost_with_gpt_vision`. -/
structure Env where
  findPath : String → Option String
  loadYolo : String → Bool
  decodeImage : List Nat → Option (Nat × Nat)
  detector : Option (List (List RawBox))
  annotate : Option String
  openaiAvailable : Bool
  openaiKey : Option String
  gptResult : Option J

def Env.toLoadEnv (env : Env) : LoadEnv := ⟨env.findPath, env.loadYolo⟩

/-- The stdin parsing of `main` (`inference_roof.py` lines 84-104): 4-byte
big-endian model-id length, model-id bytes (empty means `'default'`,
non-UTF-8 raises `UnicodeDecodeError`), 4 confidence bytes (kept raw here:
their float interpretation only parametrizes the detector call), the rest as
image data, which must be non-empty. -/
def decodeRequest (input : List Nat) : Except PyErr (String × List Nat × List Nat) :=
  if (input.take 4).length ≠ 4 then .error ⟨"Invalid input format"⟩
  else
    let model_id_length := beNat (input.take 4)
    let rest := input.drop 4
    let model_id_bytes := rest.take model_id_length
    match (if model_id_bytes.isEmpty then some "default" else utf8Decode? model_id_bytes) with
    | none => .error ⟨"utf-8 codec cannot decode model id bytes"⟩
    | some model_id =>
      let rest2 := rest.drop model_id_length
      let confidence_bytes := rest2.take 4
      let image_data := rest2.drop 4
      if image_data.isEmpty then .error ⟨"No image data provided"⟩
      else .ok (model_id, confidence_bytes, image_data)

/-- The model-id bytes `main` reads for a given input stream. -/
def modelIdBytes (input : List Nat) : List Nat :=
  (input.drop 4).take (beNat (input.take 4))

/-- The image bytes `main` reads for a given input stream (everything after
the length-prefixed id and the 4 confidence bytes). -/
def imageBytes (input : List Nat) : List Nat :=
  ((input.drop 4).drop (beNat (input.take 4))).drop 4

/-- Mapping of one raw detector box into the public detection schema
(`inference_roof.py` lines 337-356). -/
def detectionOfBox (img_width img_height : ℕ) (b : RawBox) : Detection :=
  let bbox := [b.x1, b.y1, b.x2 - b.x1, b.y2 - b.y1]
  let severity := calculate_severity (b.x2 - b.x1) (b.y2 - b.y1) img_width img_height
  { cls := damageClassName b.cls
    bbox := bbox
    conf := b.conf
    severity := severity
    affected_area_pct := round2 (severity * 100) }

/-- `perform_inference` (`inference_roof.py` lines 300-395).  Its
`try`/`except` re-raises, so every stage failure surfaces as `.error`;
only the annotated-image block (lines 361-379) has its own non-fatal
handler, modelled by `env.annotate` being consulted solely for the
`annotated_image` field. -/
def perform_inference (env : Env) (image_data : List Nat) (model_id : String)
    (fuel : Nat) : Except PyErr DamageResp :=
  match load_model damageCfg env.toLoadEnv fuel [] model_id with
  | .outOfFuel => .error recursionErr
  | .noDefaultModel m => .error ⟨m⟩
  | .modelLoadFailed m => .error ⟨m⟩
  | .ok _handle _cache =>
    match env.decodeImage image_data with
    | none => .error ⟨"cannot identify image file"⟩
    | some (img_width, img_height) =>
      match env.detector with
      | none => .error ⟨"inference failed"⟩
      | some results =>
        match results with
        | [] =>
          .ok { detections := []
                cost_estimate := estimate_cost []
                image_width := img_width
                image_height := img_height
                annotated_image := none }
        | r :: _ =>
          let detections := r.map (detectionOfBox img_width img_height)
          let annotated_image := env.annotate
          let cost_estimate := estimate_cost detections
          .ok { detections := detections
                cost_estimate := cost_estimate
                image_width := img_width
                image_height := img_height
                annotated_image := annotated_image }

/-- The body of `main`'s `try` block: decode the request, then run the
pipeline. -/
def tryRun (env : Env) (input : List Nat) (fuel : Nat) : Except PyErr DamageResp := do
  let (model_id, _confidence_bytes, image_data) ← decodeRequest input
  perform_inference env image_data model_id fuel

/-- `main` (`inference_roof.py` lines 80-120): everything a run prints to
standard output, one `J` per `print`. -/
def main (env : Env) (input : List Nat) (fuel : Nat) : List J :=
  match tryRun env input fuel with
  | .ok result => [damageRespJson result]
  | .error e => [errJson e]

end Roof

/-! ## Room-detection variant (`inference.py`) -/

namespace Room

/-- External-effect oracles for one room-detection request.  `drawOk` is
whether the per-box `draw.rectangle`/`draw.text` calls succeed; `annotate`
is the outcome of `image.save(...)` plus base64 encoding (`none` = it
threw).  The detector's results list holds `result.boxes` per result,
`none` when `boxes is None`. -/
structure Env where
  findPath : String → Option String
  loadYolo : String → Bool
  decodeImage : List Nat → Option (Nat × Nat)
  detector : Option (List (Option (List RawBox)))
  drawOk : Bool
  annotate : Option String

def Env.toLoadEnv (env : Env) : LoadEnv := ⟨env.findPath, env.loadYolo⟩

/-- The stdin parsing of `main` (`inference.py` lines 76-90): like the
damage variant but with no confidence field. -/
def decodeRequest (input : List Nat) : Except PyErr (String × List Nat) :=
  if (input.take 4).length ≠ 4 then .error ⟨"Invalid input format"⟩
  else
    let model_id_length := beNat (input.take 4)
    let rest := input.drop 4
    let model_id_bytes := rest.take model_id_length
    match (if model_id_bytes.isEmpty then some "default" else utf8Decode? model_id_bytes) with
    | none => .error ⟨"utf-8 codec cannot decode model id bytes"⟩
    | some model_id =>
      let image_data := rest.drop model_id_length
      if image_data.isEmpty then .error ⟨"No image data provided"⟩
      else .ok (model_id, image_data)

/-- The model-id bytes `main` reads for a given input stream. -/
def modelIdBytes (input : List Nat) : List Nat :=
  (input.drop 4).take (beNat (input.take 4))

/-- The image bytes `main` reads for a given input stream (everything after
the length-prefixed id). -/
def imageBytes (input : List Nat) : List Nat :=
  (input.drop 4).drop (beNat (input.take 4))

/-- `f'room_<i+1>:03d'`: decimal text left-padded with zeros to width 3. -/
def pad3 (n : ℕ) : String :=
  let s := toString n
  (List.replicate (3 - s.length) '0').asString ++ s

/-- The 0-1000 box normalization (`inference.py` lines 211-216):
`int((coord / image_dimension) * 1000)` per coordinate. -/
def normalizeBox (img_width img_height : ℕ) (b : RawBox) : List ℤ :=
  [pyInt (b.x1 / (img_width : ℚ) * 1000),
   pyInt (b.y1 / (img_height : ℚ) * 1000),
   pyInt (b.x2 / (img_width : ℚ) * 1000),
   pyInt (b.y2 / (img_height : ℚ) * 1000)]

/-- The detections built from one result's boxes (`inference.py` lines
194-222): ids `room_NNN` numbered by the enumeration index within the
result. -/
def roomsOfBoxes (img_width img_height : ℕ) (boxes : List RawBox) : List RoomDetection :=
  boxes.enum.map fun p =>
    { id := "room_" ++ pad3 (p.1 + 1)
      bounding_box := normalizeBox img_width img_height p.2
      name_hint := "room" }

/-- The `for result in results` accumulation (`inference.py` lines
191-222); results whose `boxes` is `None` are skipped. -/
def roomsOfResults (img_width img_height : ℕ)
    (results : List (Option (List RawBox))) : List RoomDetection :=
  results.foldl
    (fun acc r =>
      match r with
      | none => acc
      | some boxes => acc ++ roomsOfBoxes img_width img_height boxes) []

/-- `get_mock_results` (`inference.py` lines 247-261). -/
def get_mock_results : List RoomDetection :=
  [{ id := "room_001", bounding_box := [50, 50, 200, 300], name_hint := "room" },
   { id := "room_002", bounding_box := [250, 50, 700, 500], name_hint := "room" }]

/-- Does any detector result contain at least one box (so that the drawing
calls actually run)? -/
def anyBox (results : List (Option (List RawBox))) : Bool :=
  results.any fun r =>
    match r with
    | some boxes => !boxes.isEmpty
    | none => false

/-- The body of the `try` block of the room variant's `perform_inference`
(`inference.py` lines 163-234): decode the image, load the model, run the
detector, draw the overlay while building the detections, then PNG/base64
encode the annotated image. -/
def inferenceTry (env : Env) (image_data : List Nat) (model_id : String)
    (fuel : Nat) : Except PyErr RoomResp :=
  match env.decodeImage image_data with
  | none => .error ⟨"cannot identify image file"⟩
  | some (img_width, img_height) =>
    match load_model roomCfg env.toLoadEnv fuel [] model_id with
    | .outOfFuel => .error recursionErr
    | .noDefaultModel m => .error ⟨m⟩
    | .modelLoadFailed m => .error ⟨m⟩
    | .ok _handle _cache =>
      match env.detector with
      | none => .error ⟨"inference failed"⟩
      | some results =>
        if !env.drawOk && anyBox results then .error ⟨"draw failed"⟩
        else
          match env.annotate with
          | none => .error ⟨"image save failed"⟩
          | some annotated_image_base64 =>
            .ok { detections := roomsOfResults img_width img_height results
                  annotated_image := some annotated_image_base64 }

/-- `perform_inference` (`inference.py` lines 161-245): any failure in the
`try` block falls back to the mock results with no annotated image; the
function itself never raises. -/
def perform_inference (env : Env) (image_data : List Nat) (model_id : String)
    (fuel : Nat) : RoomResp :=
  match inferenceTry env image_data model_id fuel with
  | .ok r => r
  | .error _ => { detections := get_mock_results, annotated_image := none }

/-- The body of `main`'s `try` block: decode the request, then run the
pipeline. -/
def tryRun (env : Env) (input : List Nat) (fuel : Nat) : Except PyErr RoomResp := do
  let (model_id, image_data) ← decodeRequest input
  pure (perform_inference env image_data model_id fuel)

/-- `main` (`inference.py` lines 72-104): everything a run prints to
standard output, one `J` per `print`. -/
def main (env : Env) (input : List Nat) (fuel : Nat) : List J :=
  match tryRun env input fuel with
  | .ok result => [roomRespJson result]
  | .error e => [errJson e]

end Room

/-! ## `estimate_cost_with_gpt_vision` (`inference_roof.py` lines 184-269)

Embedded for the record: it checks library availability and the
`OPENAI_API_KEY` credential, then submits the annotated image to the
external vision model (oracle `gptResult`, already JSON-parsed; `none` for
any transport or parse failure) and validates the six required fields.
`perform_inference` never calls it. -/
def estimate_cost_with_gpt_vision (env : Roof.Env) : Option J :=
  if !env.openaiAvailable then none
  else
    match env.openaiKey with
    | none => none
    | some _api_key =>
      match env.gptResult with
      | none => none
      | some cost_data =>
        if (["labor_usd", "materials_usd", "disposal_usd", "contingency_usd",
             "total_usd", "assumptions"].all fun k => (jLookup cost_data k).isSome)
        then some cost_data else none

/-! ## The spec's claimed room-box normalization, for comparison

The spec states the room variant normalizes "via `round(coord /
image_dimension * 1000)`"; the source uses `int(...)`.  This definition
follows the spec's words, to be compared with `Room.normalizeBox` above,
which follows the source. -/

/-- The room-box normalization as the specification words it: Python
`round` per coordinate instead of the source's `int`. -/
def normalizeBoxClaimed (img_width img_height : ℕ) (b : RawBox) : List ℤ :=
  [pyRound (b.x1 / (img_width : ℚ) * 1000),
   pyRound (b.y1 / (img_height : ℚ) * 1000),
   pyRound (b.x2 / (img_width : ℚ) * 1000),
   pyRound (b.y2 / (img_height : ℚ) * 1000)]

/-! ## Concrete environments used as witnesses and counterexamples -/

/-- A filesystem where the nano weight file exists on disk but every
`YOLO(path)` call fails: the scenario singled out by the spec's open
question on `load_model` termination. -/
def badLoadEnv : LoadEnv :=
  ⟨fun fid => if fid = "roof_damage_nano_300ep" then some "nano.pt" else none,
   fun _ => false⟩

/-- A filesystem where the nano weight file exists and every load
succeeds. -/
def goodLoadEnv : LoadEnv :=
  ⟨fun fid => if fid = "roof_damage_nano_300ep" then some "nano.pt" else none,
   fun _ => true⟩

/-- A filesystem where both priority weight files exist but only the nano
one loads. -/
def mixedLoadEnv : LoadEnv :=
  ⟨fun fid =>
     if fid = "roof_damage_nano_300ep" then some "nano.pt"
     else if fid = "roof_damage_small_200ep" then some "small.pt"
     else none,
   fun p => p == "nano.pt"⟩

/-- A room-variant run on a host with no bundled models at all (every
`find_model_path` lookup fails). -/
def noModelRoomEnv : Room.Env :=
  { findPath := fun _ => none
    loadYolo := fun _ => false
    decodeImage := fun _ => some (100, 100)
    detector := some []
    drawOk := true
    annotate := some "IMG" }

/-- A detector box with pixel corners (3,3) and (200,200). -/
def box400 : RawBox := ⟨3, 3, 200, 200, 9 / 10, 0⟩

/-- A fully healthy room-variant run on a 400x400 image returning
`box400`. -/
def roomEnv400 : Room.Env :=
  { findPath := fun fid => if fid = "room-detect-1class-20ep" then some "room.pt" else none
    loadYolo := fun _ => true
    decodeImage := fun _ => some (400, 400)
    detector := some [some [box400]]
    drawOk := true
    annotate := some "IMG" }

/-- `roomEnv400`, except that saving/encoding the annotated image fails. -/
def roomEnv400NoSave : Room.Env := { roomEnv400 with annotate := none }

/-- A healthy damage-variant run on a 100x100 image with one class-3
(`hail_bruise`) box of corners (0,0)-(10,10). -/
def roofEnvC : Roof.Env :=
  { findPath := fun fid => if fid = "roof_damage_nano_300ep" then some "nano.pt" else none
    loadYolo := fun _ => true
    decodeImage := fun _ => some (100, 100)
    detector := some [[⟨0, 0, 10, 10, 9 / 10, 3⟩]]
    annotate := some "IMG"
    openaiAvailable := false
    openaiKey := none
    gptResult := none }

/-- The response `roofEnvC` produces. -/
def roofRespC : DamageResp :=
  { detections := [Roof.detectionOfBox 100 100 ⟨0, 0, 10, 10, 9 / 10, 3⟩]
    cost_estimate := estimate_cost [Roof.detectionOfBox 100 100 ⟨0, 0, 10, 10, 9 / 10, 3⟩]
    image_width := 100
    image_height := 100
    annotated_image := some "IMG" }

/-- A damage-variant run on a host with no bundled models at all. -/
def roofNoModelEnv : Roof.Env :=
  { findPath := fun _ => none
    loadYolo := fun _ => false
    decodeImage := fun _ => some (100, 100)
    detector := some []
    annotate := none
    openaiAvailable := false
    openaiKey := none
    gptResult := none }

/-- `roofEnvC`, except that the detector call throws. -/
def roofEnvNoDet : Roof.Env := { roofEnvC with detector := none }

/-! # Theorems -/

/-- Folding cost accumulation equals the initial value plus the summed
per-detection contributions. -/
theorem foldl_add_eq (f : Detection → ℚ) :
    ∀ (l : List Detection) (init : ℚ),
      l.foldl (fun acc d => acc + f d) init = init + (l.map f).sum := by
  intro l
  induction l with
  | nil => intro init; simp
  | cons a t ih =>
    intro init
    simp only [List.foldl_cons, List.map_cons, List.sum_cons, ih]
    ring

/-- C3: `estimate_cost` returns, per field and rounded to 2 decimals on
output: labor = 60% and materials = 40% of the subtotal (150 setup fee when
at least one detection, plus per detection its class base cost plus 400
times its severity); disposal = 25 when some detection's class is in the
disposal-triggering set (missing or torn shingle), else 0; contingency =
10% of subtotal; total = subtotal + disposal + contingency.  Zero
detections give the all-zero estimate, and one `hail_bruise` detection of
severity 0.5 gives subtotal 440, contingency 44 and total 484 with no
disposal. -/
theorem estimate_cost_spec :
    (∀ detections : List Detection,
      estimate_cost detections =
        (let subtotal : ℚ := (if detections = [] then 0 else 150) +
            (detections.map fun d => classBaseCost d.cls + 400 * d.severity).sum
         let disposal : ℚ :=
            if ∃ d ∈ detections, d.cls = "missing_shingle" ∨ d.cls = "torn_shingle"
            then 25 else 0
         { labor_usd := round2 (subtotal * (60 / 100))
           materials_usd := round2 (subtotal * (40 / 100))
           disposal_usd := round2 disposal
           contingency_usd := round2 (10 / 100 * subtotal)
           total_usd := round2 (subtotal + disposal + 10 / 100 * subtotal)
           assumptions :=
             "Heuristic fallback: class base + area severity + setup minimum + 10% contingency." })) ∧
    estimate_cost [] =
      ⟨0, 0, 0, 0, 0,
       "Heuristic fallback: class base + area severity + setup minimum + 10% contingency."⟩ ∧
    estimate_cost [{ cls := "hail_bruise", bbox := [], conf := 0, severity := 1 / 2,
                     affected_area_pct := 50 }] =
      ⟨264, 176, 0, 44, 484,
       "Heuristic fallback: class base + area severity + setup minimum + 10% contingency."⟩ := by
  refine ⟨fun detections => ?_, ?_, ?_⟩
  · have hany : (detections.any fun d =>
        d.cls == "missing_shingle" || d.cls == "torn_shingle") = true ↔
        ∃ d ∈ detections, d.cls = "missing_shingle" ∨ d.cls = "torn_shingle" := by
      simp [List.any_eq_true]
    have hset : (if !detections.isEmpty then SETUP_MIN_USD else 0) =
        (if detections = [] then (0 : ℚ) else 150) := by
      cases detections <;> simp [SETUP_MIN_USD]
    by_cases hd : ∃ d ∈ detections, d.cls = "missing_shingle" ∨ d.cls = "torn_shingle"
    · have ha := hany.mpr hd
      simp only [estimate_cost, foldl_add_eq, hset, ha, if_true, if_pos hd,
        SEVERITY_MULTIPLIER, CONTINGENCY_PCT, LABOR_PCT, DISPOSAL_USD]
      norm_num
    · have ha : (detections.any fun d =>
          d.cls == "missing_shingle" || d.cls == "torn_shingle") = false := by
        cases h : detections.any fun d =>
            d.cls == "missing_shingle" || d.cls == "torn_shingle"
        · rfl
        · exact absurd (hany.mp h) hd
      simp only [estimate_cost, foldl_add_eq, hset, ha, Bool.false_eq_true, if_false,
        if_neg hd, SEVERITY_MULTIPLIER, CONTINGENCY_PCT, LABOR_PCT, DISPOSAL_USD]
      norm_num
  · norm_num [estimate_cost, round2, pyRound, LABOR_PCT, SETUP_MIN_USD, SEVERITY_MULTIPLIER,
      DISPOSAL_USD, CONTINGENCY_PCT]
  · have hb : classBaseCost "hail_bruise" = 90 := rfl
    have hno : ¬("hail_bruise" = "missing_shingle" ∨ "hail_bruise" = "torn_shingle") := by
      decide
    norm_num [estimate_cost, round2, pyRound, LABOR_PCT, SETUP_MIN_USD, SEVERITY_MULTIPLIER,
      DISPOSAL_USD, CONTINGENCY_PCT, hb, hno]

/-- In the environment where the nano weight file exists but every load
fails, `load_model` is still running at every fuel bound, both when asked
for `'default'` and when asked for the nano fallback: the two calls bounce
into each other forever. -/
theorem badLoadEnv_diverges :
    ∀ n, load_model damageCfg badLoadEnv n [] "default" = LoadResult.outOfFuel ∧
      load_model damageCfg badLoadEnv n [] "roof_damage_nano_300ep" = LoadResult.outOfFuel := by
  intro n
  induction n using Nat.strong_induction_on with
  | _ n ih =>
    match n with
    | 0 => exact ⟨rfl, rfl⟩
    | m + 1 =>
      refine ⟨?_, ?_⟩
      · show load_model damageCfg badLoadEnv m [] "roof_damage_nano_300ep" =
          LoadResult.outOfFuel
        exact (ih m (by omega)).2
      · show load_model damageCfg badLoadEnv m [] "default" = LoadResult.outOfFuel
        exact (ih m (by omega)).1

/-- C2 counterexample: when the default's priority-list weight file exists
on disk but the detector library fails to load it, `load_model 'default'`
does not terminate with `ModelLoadFailed` (or any result): no amount of
fuel completes the recursion between `'default'` and the priority
fallback. -/
theorem load_model_default_divergence_cx :
    ¬ ∃ n, load_model damageCfg badLoadEnv n [] "default" ≠ LoadResult.outOfFuel := by
  rintro ⟨n, hn⟩
  exact hn (badLoadEnv_diverges n).1

/-- C2 amended: `load_model` terminates for every model identifier
(fuel 3 suffices from an empty cache) provided the priority-list model
selected for `'default'` resolution, when one exists, actually loads; and
a load failure for a non-default identifier retries exactly once by
falling back to `'default'`.  Without that proviso the recursion is
unbounded (see the counterexample). -/
theorem load_model_terminates_amended (cfg : LoadCfg) (env : LoadEnv)
    (hdp : "default" ∉ cfg.priority)
    (H : ∀ fid p, cfg.priority.find? (fun f => (env.findPath f).isSome) = some fid →
        env.findPath fid = some p → env.loadYolo p = true) :
    (∀ model_id, load_model cfg env 3 [] model_id ≠ LoadResult.outOfFuel) ∧
    (∀ model_id p, model_id ≠ "default" → env.findPath model_id = some p →
      env.loadYolo p = false →
      load_model cfg env 3 [] model_id = load_model cfg env 2 [] "default") := by
  refine ⟨?_, ?_⟩
  · intro model_id
    cases hfind : cfg.priority.find? (fun f => (env.findPath f).isSome) with
    | none =>
      by_cases hm : model_id = "default"
      · subst hm; simp [load_model, hfind]
      · cases hfp : env.findPath model_id with
        | none => simp [load_model, hm, hfp, hfind]
        | some p =>
          cases hy : env.loadYolo p with
          | true => simp [load_model, hm, hfp, hy]
          | false => simp [load_model, hm, hfp, hy, hfind]
    | some fid =>
      have hne : fid ≠ "default" := fun h => hdp (h ▸ List.mem_of_find?_eq_some hfind)
      obtain ⟨p0, hp0⟩ := Option.isSome_iff_exists.mp (by simpa using List.find?_some hfind)
      have hy0 := H fid p0 hfind hp0
      by_cases hm : model_id = "default"
      · subst hm; simp [load_model, hfind, hne, hp0, hy0]
      · cases hfp : env.findPath model_id with
        | none => simp [load_model, hm, hfp, hfind, hne, hp0, hy0]
        | some p =>
          cases hy : env.loadYolo p with
          | true => simp [load_model, hm, hfp, hy]
          | false => simp [load_model, hm, hfp, hy, hfind, hne, hp0, hy0]
  · intro model_id p hne hfp hy
    simp [load_model, hne, hfp, hy]

/-- Witness for the amended C2 theorem: with both priority weight files on
disk and only the nano one loadable, resolution of an unknown identifier
terminates, and the small model (whose file exists but fails to load)
falls back exactly once to `'default'`. -/
theorem load_model_terminates_amended_witness :
    load_model damageCfg mixedLoadEnv 3 [] "mystery" ≠ LoadResult.outOfFuel ∧
    load_model damageCfg mixedLoadEnv 3 [] "roof_damage_small_200ep" =
      load_model damageCfg mixedLoadEnv 2 [] "default" := by
  have H : ∀ fid p,
      damageCfg.priority.find? (fun f => (mixedLoadEnv.findPath f).isSome) = some fid →
      mixedLoadEnv.findPath fid = some p → mixedLoadEnv.loadYolo p = true := by
    intro fid p h1 h2
    rw [show damageCfg.priority.find? (fun f => (mixedLoadEnv.findPath f).isSome) =
      some "roof_damage_nano_300ep" from rfl] at h1
    cases h1
    rw [show mixedLoadEnv.findPath "roof_damage_nano_300ep" = some "nano.pt" from rfl] at h2
    cases h2
    rfl
  have h := load_model_terminates_amended damageCfg mixedLoadEnv (by decide) H
  exact ⟨h.1 "mystery", h.2 "roof_damage_small_200ep" "small.pt" (by decide) rfl rfl⟩

/-- C9: resolving an identifier outside the known-models table, with a
valid and loadable `'default'` available, never raises: it returns a
handle, and when the unknown identifier's own lookup or load fails the
returned handle is the default's. -/
theorem load_model_unknown_id (cfg : LoadCfg) (env : LoadEnv) (fid p : String)
    (hdp : "default" ∉ cfg.priority)
    (hfind : cfg.priority.find? (fun f => (env.findPath f).isSome) = some fid)
    (hp : env.findPath fid = some p)
    (hload : env.loadYolo p = true)
    (model_id : String)
    (hunknown : model_id ∉ cfg.modelKeys)
    (hdefault_known : "default" ∈ cfg.modelKeys) :
    (∃ h c, load_model cfg env 3 [] model_id = LoadResult.ok h c) ∧
    (env.findPath model_id = none →
      load_model cfg env 3 [] model_id = LoadResult.ok p [(fid, p)]) ∧
    (∀ q, env.findPath model_id = some q → env.loadYolo q = false →
      load_model cfg env 3 [] model_id = LoadResult.ok p [(fid, p)]) := by
  have hm : model_id ≠ "default" := fun h => hunknown (h ▸ hdefault_known)
  have hne : fid ≠ "default" := fun h => hdp (h ▸ List.mem_of_find?_eq_some hfind)
  refine ⟨?_, ?_, ?_⟩
  · cases hfp : env.findPath model_id with
    | none =>
      exact ⟨p, [(fid, p)], by simp [load_model, hm, hfp, hfind, hne, hp, hload]⟩
    | some q =>
      cases hy : env.loadYolo q with
      | true => exact ⟨q, [(model_id, q)], by simp [load_model, hm, hfp, hy]⟩
      | false =>
        exact ⟨p, [(fid, p)], by simp [load_model, hm, hfp, hy, hfind, hne, hp, hload]⟩
  · intro hfp
    simp [load_model, hm, hfp, hfind, hne, hp, hload]
  · intro q hfp hy
    simp [load_model, hm, hfp, hy, hfind, hne, hp, hload]

/-- Witness for C9: the unknown identifier `'mystery'` resolves to the
default nano handle when no weight file for it exists. -/
theorem load_model_unknown_id_witness :
    load_model damageCfg goodLoadEnv 3 [] "mystery" =
      LoadResult.ok "nano.pt" [("roof_damage_nano_300ep", "nano.pt")] := by
  have h := load_model_unknown_id damageCfg goodLoadEnv "roof_damage_nano_300ep" "nano.pt"
    (by decide) rfl rfl rfl "mystery" (by decide) (by decide)
  exact h.2.1 rfl

/-- C1: each variant's `main` prints exactly one JSON document to standard
output for every input stream and oracle environment: the serialized
success dictionary when the pipeline returns, and, on any uncaught
exception, a single JSON object carrying `error` and `traceback` keys —
never a raw crash and never more than one document. -/
theorem single_json_document (env : Roof.Env) (renv : Room.Env)
    (input input2 : List Nat) (fuel : Nat) :
    (Roof.main env input fuel).length = 1 ∧
    (Room.main renv input2 fuel).length = 1 ∧
    (∀ e, Roof.tryRun env input fuel = .error e →
      Roof.main env input fuel = [errJson e] ∧
      jLookup (errJson e) "error" = some (.str e.msg) ∧
      jLookup (errJson e) "traceback" = some (.str e.msg)) ∧
    (∀ r, Roof.tryRun env input fuel = .ok r →
      Roof.main env input fuel = [damageRespJson r]) ∧
    (∀ e, Room.tryRun renv input2 fuel = .error e →
      Room.main renv input2 fuel = [errJson e] ∧
      jLookup (errJson e) "error" = some (.str e.msg) ∧
      jLookup (errJson e) "traceback" = some (.str e.msg)) ∧
    (∀ r, Room.tryRun renv input2 fuel = .ok r →
      Room.main renv input2 fuel = [roomRespJson r]) := by
  refine ⟨?_, ?_, ?_, ?_, ?_, ?_⟩
  · cases h : Roof.tryRun env input fuel <;> simp [Roof.main, h]
  · cases h : Room.tryRun renv input2 fuel <;> simp [Room.main, h]
  · intro e he; exact ⟨by simp [Roof.main, he], rfl, rfl⟩
  · intro r hr; simp [Roof.main, hr]
  · intro e he; exact ⟨by simp [Room.main, he], rfl, rfl⟩
  · intro r hr; simp [Room.main, hr]

/-- Witness for C1: a truncated stream makes the damage variant print the
single error document, and a healthy room run prints the single success
document. -/
theorem single_json_document_witness :
    Roof.main roofEnvC [] 3 = [errJson ⟨"Invalid input format"⟩] ∧
    Room.main roomEnv400 [0, 0, 0, 0, 65] 3 =
      [roomRespJson (Room.perform_inference roomEnv400 [65] "default" 3)] := by
  refine ⟨((single_json_document roofEnvC roomEnv400 [] [0, 0, 0, 0, 65] 3).2.2.1
    ⟨"Invalid input format"⟩ rfl).1, ?_⟩
  exact (single_json_document roofEnvC roomEnv400 [] [0, 0, 0, 0, 65] 3).2.2.2.2.2
    (Room.perform_inference roomEnv400 [65] "default" 3) rfl

/-- C6 counterexample: a stream whose 4-byte length prefix is complete and
whose image bytes are non-empty still makes the decoder fail, because the
model-identifier byte `0xFF` is not valid UTF-8 — a failure mode outside
the claim's two conditions (in both variants). -/
theorem decode_request_utf8_cx :
    Roof.decodeRequest [0, 0, 0, 1, 255, 0, 0, 0, 0, 120] =
      .error ⟨"utf-8 codec cannot decode model id bytes"⟩ ∧
    ¬ ([0, 0, 0, 1, 255, 0, 0, 0, 0, 120] : List Nat).length < 4 ∧
    Roof.imageBytes [0, 0, 0, 1, 255, 0, 0, 0, 0, 120] = [120] ∧
    Room.decodeRequest [0, 0, 0, 1, 255, 120] =
      .error ⟨"utf-8 codec cannot decode model id bytes"⟩ ∧
    ¬ ([0, 0, 0, 1, 255, 120] : List Nat).length < 4 ∧
    Room.imageBytes [0, 0, 0, 1, 255, 120] = [120] ∧
    ([120] : List Nat) ≠ [] := by
  exact ⟨rfl, by decide, rfl, rfl, by decide, rfl, by decide⟩

/-- C6 amended: in both variants the decoder fails exactly when the 4-byte
length prefix cannot be read in full, the model-identifier bytes are
non-empty but not valid UTF-8, or zero image bytes remain after the
header; and on any other stream it extracts exactly the identifier
(`'default'` when the identifier length is zero) and the image bytes
delimited by the length prefix. -/
theorem decode_request_amended :
    (∀ input : List Nat,
      (∃ e, Roof.decodeRequest input = .error e) ↔
        input.length < 4 ∨
        (Roof.modelIdBytes input ≠ [] ∧ utf8Decode? (Roof.modelIdBytes input) = none) ∨
        Roof.imageBytes input = []) ∧
    (∀ input : List Nat,
      (∃ e, Room.decodeRequest input = .error e) ↔
        input.length < 4 ∨
        (Room.modelIdBytes input ≠ [] ∧ utf8Decode? (Room.modelIdBytes input) = none) ∨
        Room.imageBytes input = []) ∧
    (∀ (b0 b1 b2 b3 : Nat) (idBytes conf img : List Nat) (mid : String),
      idBytes.length = beNat [b0, b1, b2, b3] → conf.length = 4 → img ≠ [] →
      (if idBytes.isEmpty then some "default" else utf8Decode? idBytes) = some mid →
      Roof.decodeRequest (b0 :: b1 :: b2 :: b3 :: (idBytes ++ (conf ++ img))) =
        .ok (mid, conf, img)) ∧
    (∀ (b0 b1 b2 b3 : Nat) (idBytes img : List Nat) (mid : String),
      idBytes.length = beNat [b0, b1, b2, b3] → img ≠ [] →
      (if idBytes.isEmpty then some "default" else utf8Decode? idBytes) = some mid →
      Room.decodeRequest (b0 :: b1 :: b2 :: b3 :: (idBytes ++ img)) = .ok (mid, img)) := by
  refine ⟨?_, ?_, ?_, ?_⟩
  · intro input
    by_cases h4 : (input.take 4).length = 4
    · have hlen : ¬ input.length < 4 := by
        have := List.length_take 4 input
        omega
      have key : Roof.imageBytes input = [] ↔
          input.length ≤ 4 + beNat (input.take 4) + 4 := by
        simp only [Roof.imageBytes, List.drop_eq_nil_iff, List.length_drop]
        omega
      by_cases hemp : ((input.drop 4).take (beNat (input.take 4))).isEmpty
      · have hemp2 : Roof.modelIdBytes input = [] := List.isEmpty_iff.mp hemp
        by_cases himg : Roof.imageBytes input = []
        · have hcond := key.mp himg
          simp [Roof.decodeRequest, h4, hemp, hcond, hlen, himg]
        · have hcond : ¬ input.length ≤ 4 + beNat (input.take 4) + 4 :=
            fun hc => himg (key.mpr hc)
          simp [Roof.decodeRequest, h4, hemp, hcond, hlen, himg, hemp2]
      · have hne : Roof.modelIdBytes input ≠ [] := by
          simpa [Roof.modelIdBytes, List.isEmpty_iff] using hemp
        cases hdec : utf8Decode? ((input.drop 4).take (beNat (input.take 4))) with
        | none =>
          have hdecM : utf8Decode? (Roof.modelIdBytes input) = none := by
            simpa [Roof.modelIdBytes] using hdec
          simp [Roof.decodeRequest, h4, hemp, hdec, hlen, hne, hdecM]
        | some mid =>
          have hdecM : ¬ utf8Decode? (Roof.modelIdBytes input) = none := by
            simp [Roof.modelIdBytes, hdec]
          by_cases himg : Roof.imageBytes input = []
          · have hcond := key.mp himg
            simp [Roof.decodeRequest, h4, hemp, hdec, hcond, hlen, himg]
          · have hcond : ¬ input.length ≤ 4 + beNat (input.take 4) + 4 :=
              fun hc => himg (key.mpr hc)
            simp [Roof.decodeRequest, h4, hemp, hdec, hcond, hlen, himg, hdecM]
    · have hlen : input.length < 4 := by
        have := List.length_take 4 input
        omega
      simp [Roof.decodeRequest, h4, hlen]
  · intro input
    by_cases h4 : (input.take 4).length = 4
    · have hlen : ¬ input.length < 4 := by
        have := List.length_take 4 input
        omega
      have key : Room.imageBytes input = [] ↔
          input.length ≤ 4 + beNat (input.take 4) := by
        simp only [Room.imageBytes, List.drop_eq_nil_iff, List.length_drop]
        omega
      by_cases hemp : ((input.drop 4).take (beNat (input.take 4))).isEmpty
      · have hemp2 : Room.modelIdBytes input = [] := List.isEmpty_iff.mp hemp
        by_cases himg : Room.imageBytes input = []
        · have hcond := key.mp himg
          simp [Room.decodeRequest, h4, hemp, hcond, hlen, himg]
        · have hcond : ¬ input.length ≤ 4 + beNat (input.take 4) :=
            fun hc => himg (key.mpr hc)
          simp [Room.decodeRequest, h4, hemp, hcond, hlen, himg, hemp2]
      · have hne : Room.modelIdBytes input ≠ [] := by
          simpa [Room.modelIdBytes, List.isEmpty_iff] using hemp
        cases hdec : utf8Decode? ((input.drop 4).take (beNat (input.take 4))) with
        | none =>
          have hdecM : utf8Decode? (Room.modelIdBytes input) = none := by
            simpa [Room.modelIdBytes] using hdec
          simp [Room.decodeRequest, h4, hemp, hdec, hlen, hne, hdecM]
        | some mid =>
          have hdecM : ¬ utf8Decode? (Room.modelIdBytes input) = none := by
            simp [Room.modelIdBytes, hdec]
          by_cases himg : Room.imageBytes input = []
          · have hcond := key.mp himg
            simp [Room.decodeRequest, h4, hemp, hdec, hcond, hlen, himg]
          · have hcond : ¬ input.length ≤ 4 + beNat (input.take 4) :=
              fun hc => himg (key.mpr hc)
            simp [Room.decodeRequest, h4, hemp, hdec, hcond, hlen, himg, hdecM]
    · have hlen : input.length < 4 := by
        have := List.length_take 4 input
        omega
      simp [Room.decodeRequest, h4, hlen]
  · intro b0 b1 b2 b3 idBytes conf img mid hlen hconf himg hmid
    have ht4 : ((b0 :: b1 :: b2 :: b3 :: (idBytes ++ (conf ++ img))).take 4) =
      [b0, b1, b2, b3] := rfl
    have hd4 : ((b0 :: b1 :: b2 :: b3 :: (idBytes ++ (conf ++ img))).drop 4) =
      idBytes ++ (conf ++ img) := rfl
    have htake : (idBytes ++ (conf ++ img)).take (beNat [b0, b1, b2, b3]) = idBytes :=
      List.take_left' hlen
    have hdrop : (idBytes ++ (conf ++ img)).drop (beNat [b0, b1, b2, b3]) = conf ++ img :=
      List.drop_left' hlen
    have htc : (conf ++ img).take 4 = conf := List.take_left' hconf
    have hdc : (conf ++ img).drop 4 = img := List.drop_left' hconf
    simp only [Roof.decodeRequest, ht4, hd4, htake, hdrop, htc, hdc, hmid,
      List.length_cons, List.length_nil]
    simp [himg]
  · intro b0 b1 b2 b3 idBytes img mid hlen himg hmid
    have ht4 : ((b0 :: b1 :: b2 :: b3 :: (idBytes ++ img)).take 4) = [b0, b1, b2, b3] := rfl
    have hd4 : ((b0 :: b1 :: b2 :: b3 :: (idBytes ++ img)).drop 4) = idBytes ++ img := rfl
    have htake : (idBytes ++ img).take (beNat [b0, b1, b2, b3]) = idBytes :=
      List.take_left' hlen
    have hdrop : (idBytes ++ img).drop (beNat [b0, b1, b2, b3]) = img :=
      List.drop_left' hlen
    simp only [Room.decodeRequest, ht4, hd4, htake, hdrop, hmid,
      List.length_cons, List.length_nil]
    simp [himg]

/-- Witness for the amended C6 theorem: a well-formed stream with id
`'hi'`, 4 confidence bytes and one image byte decodes exactly in both
variants. -/
theorem decode_request_amended_witness :
    Roof.decodeRequest [0, 0, 0, 2, 104, 105, 0, 0, 0, 0, 9] =
      .ok ("hi", [0, 0, 0, 0], [9]) ∧
    Room.decodeRequest [0, 0, 0, 2, 104, 105, 9] = .ok ("hi", [9]) := by
  refine ⟨?_, ?_⟩
  · exact decode_request_amended.2.2.1 0 0 0 2 [104, 105] [0, 0, 0, 0] [9] "hi"
      rfl rfl (by decide) rfl
  · exact decode_request_amended.2.2.2 0 0 0 2 [104, 105] [9] "hi" rfl (by decide) rfl

/-- C5 counterexample: for the box (3,3)-(200,200) on a 400x400 image the
program emits coordinate `int(7.5) = 7`, while the claimed
`round(coord / dim * 1000)` gives `round(7.5) = 8`: the normalized box the
room pipeline produces differs from the claim's. -/
theorem room_normalization_rounding_cx :
    (Room.perform_inference roomEnv400 [65] "default" 3).detections =
      [{ id := "room_001", bounding_box := Room.normalizeBox 400 400 box400,
         name_hint := "room" }] ∧
    Room.normalizeBox 400 400 box400 = [7, 7, 500, 500] ∧
    normalizeBoxClaimed 400 400 box400 = [8, 8, 500, 500] ∧
    Room.normalizeBox 400 400 box400 ≠ normalizeBoxClaimed 400 400 box400 := by
  have ha : Room.normalizeBox 400 400 box400 = [7, 7, 500, 500] := by
    norm_num [Room.normalizeBox, pyInt, box400]
  have hb : normalizeBoxClaimed 400 400 box400 = [8, 8, 500, 500] := by
    norm_num [normalizeBoxClaimed, pyRound, box400]
  exact ⟨rfl, ha, hb, by simp [ha, hb]⟩

/-- C5 amended: for a detector run returning one result with a list of
boxes on an image of known dimensions, the room variant labels each
detection with name hint `'room'` and the 3-digit 1-based sequential id
`room_NNN`, and each output coordinate is `int(coord / image_dimension *
1000)` (truncation, not `round`); the [100,100,200,200] box on a
1000x1000 image still maps to itself. -/
theorem room_detection_schema_amended :
    (∀ (env : Room.Env) (image_data : List Nat) (model_id : String) (fuel : Nat)
        (img_width img_height : ℕ) (boxes : List RawBox) (b64 hdl : String)
        (c : List (String × String)),
      env.decodeImage image_data = some (img_width, img_height) →
      load_model roomCfg env.toLoadEnv fuel [] model_id = .ok hdl c →
      env.detector = some [some boxes] →
      env.drawOk = true →
      env.annotate = some b64 →
      Room.perform_inference env image_data model_id fuel =
        { detections := boxes.enum.map fun p =>
            { id := "room_" ++ Room.pad3 (p.1 + 1)
              bounding_box := Room.normalizeBox img_width img_height p.2
              name_hint := "room" }
          annotated_image := some b64 }) ∧
    Room.normalizeBox 1000 1000 ⟨100, 100, 200, 200, 1, 0⟩ = [100, 100, 200, 200] := by
  constructor
  · intro env image_data model_id fuel img_width img_height boxes b64 hdl c
      hdecode hload hdet hdraw hann
    simp [Room.perform_inference, Room.inferenceTry, hdecode, hload, hdet, hdraw, hann,
      Room.roomsOfResults, Room.roomsOfBoxes]
  · norm_num [Room.normalizeBox, pyInt]

/-- Witness for the amended C5 theorem: the healthy 400x400 run yields the
single truncated-coordinate detection. -/
theorem room_detection_schema_amended_witness :
    Room.perform_inference roomEnv400 [65] "default" 3 =
      { detections := [some (0, box400)].reduceOption.map fun p =>
          { id := "room_" ++ Room.pad3 (p.1 + 1)
            bounding_box := Room.normalizeBox 400 400 p.2
            name_hint := "room" }
        annotated_image := some "IMG" } := by
  have h := room_detection_schema_amended.1 roomEnv400 [65] "default" 3 400 400 [box400]
    "IMG" "room.pt" [("room-detect-1class-20ep", "room.pt")] rfl rfl rfl rfl rfl
  simpa using h

/-- C7 counterexample: in the room variant an overlay/encode failure does
change another field: the run that saves its annotated image reports the
real detection, while the identical run whose save fails reports the two
mock detections instead. -/
theorem room_overlay_failure_cx :
    (Room.perform_inference roomEnv400 [65] "default" 3).detections =
      [{ id := "room_001", bounding_box := Room.normalizeBox 400 400 box400,
         name_hint := "room" }] ∧
    (Room.perform_inference roomEnv400NoSave [65] "default" 3).detections =
      Room.get_mock_results ∧
    Room.get_mock_results ≠
      [{ id := "room_001", bounding_box := Room.normalizeBox 400 400 box400,
         name_hint := "room" }] := by
  refine ⟨rfl, rfl, fun h => ?_⟩
  have := congrArg List.length h
  simp [Room.get_mock_results] at this

/-- C7 amended: in the damage variant an overlay failure is non-fatal and
only nulls `annotated_image`, leaving every other field unchanged; in the
room variant a failure while rendering or encoding the overlay aborts the
whole inference block and replaces the response with the mock detections
and a null annotated image. -/
theorem overlay_failure_amended :
    (∀ (env : Roof.Env) (image_data : List Nat) (model_id : String) (fuel : Nat),
      Roof.perform_inference { env with annotate := none } image_data model_id fuel =
        (Roof.perform_inference env image_data model_id fuel).map
          (fun r => { r with annotated_image := none })) ∧
    (∀ (env : Room.Env) (image_data : List Nat) (model_id : String) (fuel : Nat),
      env.annotate = none →
      Room.perform_inference env image_data model_id fuel =
        { detections := Room.get_mock_results, annotated_image := none }) := by
  constructor
  · intro env image_data model_id fuel
    set env2 : Roof.Env := { env with annotate := none } with hdef
    have e1 : env2.toLoadEnv = env.toLoadEnv := rfl
    have e2 : env2.decodeImage = env.decodeImage := rfl
    have e3 : env2.detector = env.detector := rfl
    have e4 : env2.annotate = none := rfl
    cases h1 : load_model damageCfg env.toLoadEnv fuel [] model_id with
    | outOfFuel => simp [Roof.perform_inference, e1, e2, e3, e4, h1, Except.map]
    | noDefaultModel m => simp [Roof.perform_inference, e1, e2, e3, e4, h1, Except.map]
    | modelLoadFailed m => simp [Roof.perform_inference, e1, e2, e3, e4, h1, Except.map]
    | ok hdl c =>
      cases h2 : env.decodeImage image_data with
      | none => simp [Roof.perform_inference, e1, e2, e3, e4, h1, h2, Except.map]
      | some wh =>
        obtain ⟨img_width, img_height⟩ := wh
        cases h3 : env.detector with
        | none => simp [Roof.perform_inference, e1, e2, e3, e4, h1, h2, h3, Except.map]
        | some results =>
          cases results with
          | nil => simp [Roof.perform_inference, e1, e2, e3, e4, h1, h2, h3, Except.map]
          | cons r rs => simp [Roof.perform_inference, e1, e2, e3, e4, h1, h2, h3, Except.map]
  · intro env image_data model_id fuel hann
    cases h1 : env.decodeImage image_data with
    | none => simp [Room.perform_inference, Room.inferenceTry, h1]
    | some wh =>
      obtain ⟨img_width, img_height⟩ := wh
      cases h2 : load_model roomCfg env.toLoadEnv fuel [] model_id with
      | outOfFuel => simp [Room.perform_inference, Room.inferenceTry, h1, h2]
      | noDefaultModel m => simp [Room.perform_inference, Room.inferenceTry, h1, h2]
      | modelLoadFailed m => simp [Room.perform_inference, Room.inferenceTry, h1, h2]
      | ok hdl c =>
        cases h3 : env.detector with
        | none => simp [Room.perform_inference, Room.inferenceTry, h1, h2, h3]
        | some results =>
          by_cases h4 : (!env.drawOk && Room.anyBox results) = true
          · simp [Room.perform_inference, Room.inferenceTry, h1, h2, h3, h4]
          · simp [Room.perform_inference, Room.inferenceTry, h1, h2, h3, h4, hann]

/-- Witness for the amended C7 theorem: the concrete healthy damage run
with a failing overlay, and the concrete room run whose image save
fails. -/
theorem overlay_failure_amended_witness :
    Roof.perform_inference { roofEnvC with annotate := none } [65] "default" 3 =
      (Roof.perform_inference roofEnvC [65] "default" 3).map
        (fun r => { r with annotated_image := none }) ∧
    Room.perform_inference roomEnv400NoSave [65] "default" 3 =
      { detections := Room.get_mock_results, annotated_image := none } :=
  ⟨overlay_failure_amended.1 roofEnvC [65] "default" 3,
   overlay_failure_amended.2 roomEnv400NoSave [65] "default" 3 rfl⟩

/-- C8 counterexample: a successful room-variant response contains no
`image_width` or `image_height` key at all. -/
theorem room_response_missing_dimensions_cx :
    Room.main roomEnv400 [0, 0, 0, 0, 65] 3 =
      [roomRespJson (Room.perform_inference roomEnv400 [65] "default" 3)] ∧
    jLookup (roomRespJson (Room.perform_inference roomEnv400 [65] "default" 3))
      "image_width" = none ∧
    jLookup (roomRespJson (Room.perform_inference roomEnv400 [65] "default" 3))
      "image_height" = none ∧
    jLookup (roomRespJson (Room.perform_inference roomEnv400 [65] "default" 3))
      "detections" ≠ none := by
  exact ⟨rfl, rfl, rfl, by simp [jLookup, roomRespJson]⟩

/-- C8 amended: every successful damage-variant response carries the
detections list, the cost estimate, integer `image_width` and
`image_height`, and an `annotated_image` entry (string or null); every
successful room-variant response carries exactly `detections` and
`annotated_image` — no image dimensions and no cost estimate. -/
theorem response_fields_amended :
    (∀ r : DamageResp,
      jKeys (damageRespJson r) =
        ["detections", "cost_estimate", "image_width", "image_height", "annotated_image"] ∧
      jLookup (damageRespJson r) "detections" =
        some (.arr (r.detections.map detectionJson)) ∧
      jLookup (damageRespJson r) "cost_estimate" = some (costJson r.cost_estimate) ∧
      jLookup (damageRespJson r) "image_width" = some (.int r.image_width) ∧
      jLookup (damageRespJson r) "image_height" = some (.int r.image_height) ∧
      jLookup (damageRespJson r) "annotated_image" = some (optStrJson r.annotated_image)) ∧
    (∀ r : RoomResp, jKeys (roomRespJson r) = ["detections", "annotated_image"]) :=
  ⟨fun _ => ⟨rfl, rfl, rfl, rfl, rfl, rfl⟩, fun _ => rfl⟩

/-- C4 counterexample: in the room variant a load failure of the default
model (no bundled weights at all, so `load_model` raises its
no-default-model error) does not produce the error document: the run
prints the success-shaped document with the two mock detections. -/
theorem room_default_load_failure_cx :
    Room.main noModelRoomEnv [0, 0, 0, 0, 65] 5 =
      [roomRespJson { detections := Room.get_mock_results, annotated_image := none }] ∧
    jLookup (roomRespJson { detections := Room.get_mock_results, annotated_image := none })
      "error" = none ∧
    load_model roomCfg noModelRoomEnv.toLoadEnv 5 [] "default" =
      LoadResult.noDefaultModel "No default model found - bundled model missing!" := by
  exact ⟨rfl, rfl, rfl⟩

/-- C4 amended: in the room variant only a malformed request produces the
error document — every failure inside inference, including a default-model
load failure and detector errors, degrades to the mock detections inside a
success document; in the damage variant a default-model load failure and a
detector error each surface as the error document. -/
theorem error_document_conditions_amended :
    (∀ (renv : Room.Env) (input : List Nat) (fuel : Nat),
      (∃ e, Room.main renv input fuel = [errJson e]) ↔
      (∃ e, Room.decodeRequest input = .error e)) ∧
    (∀ (renv : Room.Env) (input : List Nat) (fuel : Nat) (model_id : String)
        (image_data : List Nat) (e : PyErr),
      Room.decodeRequest input = .ok (model_id, image_data) →
      Room.inferenceTry renv image_data model_id fuel = .error e →
      Room.main renv input fuel =
        [roomRespJson { detections := Room.get_mock_results, annotated_image := none }]) ∧
    (∀ (env : Roof.Env) (input : List Nat) (fuel : Nat) (model_id : String)
        (conf image_data : List Nat) (m : String),
      Roof.decodeRequest input = .ok (model_id, conf, image_data) →
      load_model damageCfg env.toLoadEnv fuel [] model_id = .noDefaultModel m →
      Roof.main env input fuel = [errJson ⟨m⟩]) ∧
    (∀ (env : Roof.Env) (input : List Nat) (fuel : Nat) (model_id : String)
        (conf image_data : List Nat) (hdl : String) (c : List (String × String))
        (img_width img_height : ℕ),
      Roof.decodeRequest input = .ok (model_id, conf, image_data) →
      load_model damageCfg env.toLoadEnv fuel [] model_id = .ok hdl c →
      env.decodeImage image_data = some (img_width, img_height) →
      env.detector = none →
      Roof.main env input fuel = [errJson ⟨"inference failed"⟩]) := by
  refine ⟨?_, ?_, ?_, ?_⟩
  · intro renv input fuel
    cases hdec : Room.decodeRequest input with
    | error e => simp [Room.main, Room.tryRun, hdec]
    | ok val =>
      obtain ⟨model_id, image_data⟩ := val
      simp only [Room.main, Room.tryRun, hdec]
      constructor
      · rintro ⟨e, he⟩
        exfalso
        simp [roomRespJson, errJson] at he
      · rintro ⟨e, he⟩
        exact absurd he (by simp)
  · intro renv input fuel model_id image_data e hdec htry
    simp [Room.main, Room.tryRun, hdec, Room.perform_inference, htry]
  · intro env input fuel model_id conf image_data m hdec hload
    simp [Roof.main, Roof.tryRun, hdec, Roof.perform_inference, hload, Except.bind, bind]
  · intro env input fuel model_id conf image_data hdl c img_width img_height
      hdec hload hdecode hdet
    simp [Roof.main, Roof.tryRun, hdec, Roof.perform_inference, hload, hdecode, hdet, Except.bind, bind]

/-- Witness for the amended C4 theorem: the room save-failure run prints
the mock success document, while the damage variant prints the error
document both when no default model exists and when the detector
throws. -/
theorem error_document_conditions_amended_witness :
    Room.main roomEnv400NoSave [0, 0, 0, 0, 65] 3 =
      [roomRespJson { detections := Room.get_mock_results, annotated_image := none }] ∧
    Roof.main roofNoModelEnv [0, 0, 0, 0, 0, 0, 0, 0, 65] 3 =
      [errJson ⟨"No default model found - bundled model missing!"⟩] ∧
    Roof.main roofEnvNoDet [0, 0, 0, 0, 0, 0, 0, 0, 65] 3 =
      [errJson ⟨"inference failed"⟩] := by
  refine ⟨?_, ?_, ?_⟩
  · exact error_document_conditions_amended.2.1 roomEnv400NoSave [0, 0, 0, 0, 65] 3
      "default" [65] ⟨"image save failed"⟩ rfl rfl
  · exact error_document_conditions_amended.2.2.1 roofNoModelEnv
      [0, 0, 0, 0, 0, 0, 0, 0, 65] 3 "default" [0, 0, 0, 0] [65]
      "No default model found - bundled model missing!" rfl rfl
  · exact error_document_conditions_amended.2.2.2 roofEnvNoDet
      [0, 0, 0, 0, 0, 0, 0, 0, 65] 3 "default" [0, 0, 0, 0] [65] "nano.pt"
      [("roof_damage_nano_300ep", "nano.pt")] 100 100 rfl rfl rfl rfl

/-- C10: every successful damage-variant response carries exactly the
heuristic `estimate_cost` of its own detections list, and the whole
output is independent of the OpenAI availability flag, the
`OPENAI_API_KEY` credential and the vision-model transport result:
`estimate_cost_with_gpt_vision` is never consulted by the pipeline. -/
theorem cost_estimate_heuristic_and_key_independence :
    (∀ (env : Roof.Env) (image_data : List Nat) (model_id : String) (fuel : Nat)
        (r : DamageResp),
      Roof.perform_inference env image_data model_id fuel = .ok r →
      r.cost_estimate = estimate_cost r.detections) ∧
    (∀ (env : Roof.Env) (input : List Nat) (fuel : Nat) (avail : Bool)
        (key : Option String) (g : Option J),
      Roof.main { env with openaiAvailable := avail, openaiKey := key, gptResult := g }
          input fuel = Roof.main env input fuel) := by
  constructor
  · intro env image_data model_id fuel r h
    unfold Roof.perform_inference at h
    cases h1 : load_model damageCfg env.toLoadEnv fuel [] model_id with
    | outOfFuel => rw [h1] at h; exact absurd h (by simp)
    | noDefaultModel m => rw [h1] at h; exact absurd h (by simp)
    | modelLoadFailed m => rw [h1] at h; exact absurd h (by simp)
    | ok hdl c =>
      rw [h1] at h
      cases h2 : env.decodeImage image_data with
      | none => rw [h2] at h; exact absurd h (by simp)
      | some wh =>
        obtain ⟨img_width, img_height⟩ := wh
        rw [h2] at h
        cases h3 : env.detector with
        | none => rw [h3] at h; exact absurd h (by simp)
        | some results =>
          rw [h3] at h
          cases results with
          | nil => cases Except.ok.inj h; rfl
          | cons rr rs => cases Except.ok.inj h; rfl
  · intro env input fuel avail key g
    rfl

/-- Witness for C10: the healthy damage run returns the response whose
`cost_estimate` is the heuristic estimate of its detections. -/
theorem cost_estimate_heuristic_witness :
    Roof.perform_inference roofEnvC [65] "default" 3 = .ok roofRespC ∧
    roofRespC.cost_estimate = estimate_cost roofRespC.detections := by
  refine ⟨rfl, ?_⟩
  exact cost_estimate_heuristic_and_key_independence.1 roofEnvC [65] "default" 3
    roofRespC rfl

end Clappper
